import Mathlib

/- Verification development for the setlist compatibility scoring engine.

   The definitions below are a shallow embedding of the two Python drafts of
   the program: src/main.py (metadata rows of filename, bpm, key; the Camelot
   wheel tables; assign_points_and_sort; get_best_matches; find_closest_songs)
   and src/genred-setlists.py (the same tables plus an assign_points_and_sort
   variant that first coerces the bpm column to numeric in place).

   Modelling conventions:
   - a pandas frame is a list of rows, in frame order;
   - a NaN cell is Option.none; the genred draft reads bpm tags as raw
     strings, so its pre-coercion bpm cells are a three-valued BpmVal;
   - the source calls pandas sort_values with its default sort kind,
     which leaves the relative order of equal keys unspecified; the
     embedding determinizes that unspecified tie order as a stable
     insertion sort, and no theorem below depends on the tie order (the
     concrete sorted catalogs have pairwise distinct keys, the general
     conclusions proved about sorted output are invariant under any tie
     order, and the draft-equivalence result compares two runs of the
     one identical sort on identical input);
   - float percentages are represented exactly, in integer hundredths of a
     percent: every percentage the engine can produce is an integer number
     of hundredths and never sits on a rounding tie, so the float result of
     round(total / 30 * 100, 2) is reproduced exactly (the source value 76.67
     is the value 7667 here);
   - the in-place column mutation of the genred draft is explicit state
     passing: its engine returns the result together with the frame as it
     is left after the call. -/

/-- A raw BPM cell. src/main.py stores int(tag) or None at extraction time;
src/genred-setlists.py stores the raw tag string or None and only converts
to numbers inside its scoring function. -/
inductive BpmVal where
  | num (n : ℤ)
  | str (s : String)
  | missing
deriving DecidableEq

/-- A catalog row of src/main.py: columns filename, bpm, key. -/
structure Track where
  filename : String
  bpm : Option ℤ
  key : String
deriving DecidableEq

/-- A catalog row of src/genred-setlists.py before numeric coercion of the
bpm column (the genre column plays no role in scoring and is omitted). -/
structure GTrack where
  filename : String
  bpm : BpmVal
  key : String
deriving DecidableEq

/-- camelot_key_mapping from src/main.py lines 99-126 and
src/genred-setlists.py lines 142-169 (identical in both drafts),
as an association list in source order. -/
def camelot_key_mapping : List (String × List String) :=
  [("1A", ["12A", "2A", "1B"]),
   ("2A", ["1A", "3A", "2B"]),
   ("3A", ["2A", "4A", "3B"]),
   ("4A", ["3A", "5A", "4B"]),
   ("5A", ["4A", "6A", "5B"]),
   ("6A", ["5A", "7A", "6B"]),
   ("7A", ["6A", "8A", "7B"]),
   ("8A", ["7A", "9A", "8B"]),
   ("9A", ["8A", "10A", "9B"]),
   ("10A", ["9A", "11A", "10B"]),
   ("11A", ["10A", "12A", "11B"]),
   ("12A", ["11A", "1A", "12B"]),
   ("1B", ["12B", "2B", "1A"]),
   ("2B", ["1B", "3B", "2A"]),
   ("3B", ["2B", "4B", "3A"]),
   ("4B", ["3B", "5B", "4A"]),
   ("5B", ["4B", "6B", "5A"]),
   ("6B", ["5B", "7B", "6A"]),
   ("7B", ["6B", "8B", "7A"]),
   ("8B", ["7B", "9B", "8A"]),
   ("9B", ["8B", "10B", "9A"]),
   ("10B", ["9B", "11B", "10A"]),
   ("11B", ["10B", "12B", "11A"]),
   ("12B", ["11B", "1B", "12A"])]

/-- Neighbor lookup: camelot_map.get(position, []), the dictionary access
pattern used by calculate_harmonic_points_and_type in both drafts. -/
def camelotNeighbors (position : String) : List String :=
  match camelot_key_mapping.find? (fun e => e.1 == position) with
  | some e => e.2
  | none => []

/-- key_map from musical_key_to_camelot, src/main.py lines 128-140 and
src/genred-setlists.py lines 171-183 (identical in both drafts). -/
def musical_key_map : List (String × String) :=
  [("C", "8B"), ("Cm", "5A"), ("C#", "3B"), ("C#m", "12A"),
   ("D", "10B"), ("Dm", "7A"), ("D#", "5B"), ("D#m", "2A"),
   ("E", "12B"), ("Em", "9A"), ("F", "7B"), ("Fm", "4A"),
   ("F#", "2B"), ("F#m", "11A"), ("G", "9B"), ("Gm", "6A"),
   ("G#", "4B"), ("G#m", "1A"), ("A", "11B"), ("Am", "8A"),
   ("A#", "6B"), ("A#m", "3A"), ("B", "1B"), ("Bm", "10A"),
   ("Db", "3B"), ("Dbm", "12A"), ("Ab", "4B"), ("Abm", "1A"),
   ("Bb", "6B"), ("Bbm", "3A"), ("Eb", "5B"), ("Ebm", "2A")]

/-- musical_key_to_camelot: key_map.get(key, ""). -/
def musical_key_to_camelot (key : String) : String :=
  match musical_key_map.find? (fun e => e.1 == key) with
  | some e => e.2
  | none => ""

/-- The bpm_diff column: abs(df.bpm - selected_bpm). NaN on either side
propagates to NaN (none). -/
def bpm_diff (selected_bpm candidate_bpm : Option ℤ) : Option ℤ :=
  match selected_bpm, candidate_bpm with
  | some s, some c => some ((c - s).natAbs : ℤ)
  | _, _ => none

/-- The bpm_points column: the lambda diff: max(0, 10 - diff) of both
drafts. For a NaN diff, Python evaluates max(0, 10 - nan) to 0, because
nan > 0 is false and the first argument is returned. -/
def bpm_points_of (diff : Option ℤ) : ℤ :=
  match diff with
  | some d => max 0 (10 - d)
  | none => 0

/-- calculate_harmonic_points_and_type, src/main.py lines 213-223 and
src/genred-setlists.py lines 203-213 (identical in both drafts); camelot_key
is the wheel position of the selected track captured by the closure. The slices
map [:1] to take 1, [:2] to take 2, [2:] to drop 2. -/
def calculate_harmonic_points_and_type (camelot_key : String) (key : String) : ℤ × String :=
  let camelot_key_of_song := musical_key_to_camelot key
  let ns := camelotNeighbors camelot_key
  if camelot_key_of_song = camelot_key then (20, "=")
  else if (ns.take 1).contains camelot_key_of_song then (15, "+++")
  else if (ns.take 2).contains camelot_key_of_song then (10, "++")
  else if (ns.drop 2).contains camelot_key_of_song then (5, "+")
  else (0, "")

/-- round(total / 30 * 100, 2) expressed in integer hundredths of a percent:
the nearest integer to 1000 * total / 3. The totals of the engine are between 0
and 30, so the division below is exact floor division and the quantity
1000 * total / 3 never lies on a rounding tie (its fractional part is 0, 1/3
or 2/3); hence this reproduces the float rounding of the source exactly. -/
def pct_hundredths (total : ℤ) : ℤ := (2000 * total + 3) / 6

/-- One row of the frame produced by assign_points_and_sort, with the
derived columns of both drafts. -/
structure ScoredRow where
  filename : String
  bpm : Option ℤ
  key : String
  match_type : String
  bpm_points : ℤ
  harmonic_points : ℤ
  total_points : ℤ
  percentage_hundredths : ℤ
deriving DecidableEq

/-- The per-row computation of assign_points_and_sort (both drafts): the
bpm_points, harmonic_points, match_type, total_points and percentage columns
derived for one candidate row t against the selected row sel whose resolved
wheel position is camelot_key. -/
def scoreRow (sel : Track) (camelot_key : String) (t : Track) : ScoredRow :=
  let bp := bpm_points_of (bpm_diff sel.bpm t.bpm)
  let hm := calculate_harmonic_points_and_type camelot_key t.key
  { filename := t.filename
    bpm := t.bpm
    key := t.key
    match_type := hm.2
    bpm_points := bp
    harmonic_points := hm.1
    total_points := bp + hm.1
    percentage_hundredths := pct_hundredths (bp + hm.1) }

/-- Insert an element into a list, placing it before the first element b
with le a b; used to build the stable sort modelling pandas sort_values. -/
def insertSorted {α : Type} (le : α → α → Bool) (a : α) : List α → List α
  | [] => [a]
  | b :: l => if le a b then a :: b :: l else b :: insertSorted le a l

/-- Stable insertion sort: an element of the input is placed before every
later input element it compares le-true against, so input order is kept
among ties whenever le is total and reflexive. -/
def stableSort {α : Type} (le : α → α → Bool) : List α → List α
  | [] => []
  | a :: l => insertSorted le a (stableSort le l)

/-- df.sort_values(by=key, ascending=False). The source uses the pandas
default sort kind, which promises a descending order on the key but leaves
the relative order of equal keys unspecified; this embedding determinizes
that unspecified tie order as a stable descending sort. No theorem below
relies on the tie order. -/
def sort_values_desc {α : Type} (key : α → ℤ) (l : List α) : List α :=
  stableSort (fun a b => decide (key b ≤ key a)) l

/-- df.sort_values(by=key), ascending: ascending order on the key, with the
same determinization of the unspecified tie order as sort_values_desc. -/
def sort_values_asc {α : Type} (key : α → ℤ) (l : List α) : List α :=
  stableSort (fun a b => decide (key a ≤ key b)) l

/-- df.loc[df.filename == s].values[0]: the first row whose filename equals
s, none when the frame has no such row (in the source, values[0] on an empty
selection raises, which the callers guard against). -/
def lookupTrack (df : List Track) (s : String) : Option Track :=
  df.find? (fun t => t.filename == s)

/-- assign_points_and_sort, src/main.py lines 196-239. Returns none when the
initial values[0] lookups would raise (selected song absent), some [] for
the explicit empty-frame return on an unresolvable selected key, and
otherwise the frame of scored rows sorted by total_points descending. -/
def assign_points_and_sort (df : List Track) (selected_song : String) :
    Option (List ScoredRow) :=
  (lookupTrack df selected_song).map fun sel =>
    let camelot_key := musical_key_to_camelot sel.key
    if camelot_key = "" then []
    else sort_values_desc (fun r => r.total_points) (df.map (scoreRow sel camelot_key))

/-- get_best_matches, src/main.py lines 241-251: empty frame when the
selected song is absent, otherwise the sorted scores with the selected song
itself filtered out. (The source then projects to five display columns,
which drops no rows.) -/
def get_best_matches (df : List Track) (selected_song : String) :
    Option (List ScoredRow) :=
  if (df.map Track.filename).contains selected_song then
    (assign_points_and_sort df selected_song).map
      (fun rows => rows.filter (fun r => r.filename != selected_song))
  else some []

/-- find_closest_songs, src/main.py lines 92-97: rows within 5 BPM of the
selected song (a NaN difference fails the comparison and is dropped), sorted
by bpm_diff ascending, first 6 rows, projected to filename and bpm. -/
def find_closest_songs (df : List Track) (selected_song : String) :
    Option (List (String × Option ℤ)) :=
  (lookupTrack df selected_song).map fun sel =>
    let withDiff := df.map (fun t => (t, bpm_diff sel.bpm t.bpm))
    let close := withDiff.filter (fun td =>
      match td.2 with
      | some d => decide (d ≤ 5)
      | none => false)
    let sorted := sort_values_asc (fun td => td.2.getD 0) close
    (sorted.take 6).map (fun td => (td.1.filename, td.1.bpm))

/-- Value of a decimal digit character, none for a non-digit. -/
def digitVal (c : Char) : Option ℕ :=
  if c = '0' then some 0 else if c = '1' then some 1 else if c = '2' then some 2
  else if c = '3' then some 3 else if c = '4' then some 4 else if c = '5' then some 5
  else if c = '6' then some 6 else if c = '7' then some 7 else if c = '8' then some 8
  else if c = '9' then some 9 else none

/-- Accumulate a decimal number over a character list, none on a non-digit. -/
def natOfDigits (acc : ℕ) : List Char → Option ℕ
  | [] => some acc
  | c :: cs =>
    match digitVal c with
    | some d => natOfDigits (10 * acc + d) cs
    | none => none

/-- Parse an optionally minus-signed, nonempty decimal integer string. -/
def parseIntString (s : String) : Option ℤ :=
  match s.data with
  | [] => none
  | '-' :: rest =>
    match rest with
    | [] => none
    | _ => (natOfDigits 0 rest).map (fun n => -(n : ℤ))
  | l => (natOfDigits 0 l).map (fun n => (n : ℤ))

/-- pd.to_numeric(cell, errors="coerce") on one bpm cell: numbers pass
through, numeric strings parse (the BPM tags of the catalog are integer strings,
so integer parsing covers the values this frame can hold), anything else
becomes NaN. -/
def to_numericB : BpmVal → BpmVal
  | BpmVal.num n => BpmVal.num n
  | BpmVal.str s =>
    match parseIntString s with
    | some n => BpmVal.num n
    | none => BpmVal.missing
  | BpmVal.missing => BpmVal.missing

/-- The numeric reading of a coerced bpm cell (NaN is none). -/
def asOptInt : BpmVal → Option ℤ
  | BpmVal.num n => some n
  | _ => none

/-- The effect of the statement df.bpm = pd.to_numeric(df.bpm) on one row:
filename and key are untouched, bpm is overwritten. -/
def coerceGTrack (t : GTrack) : GTrack :=
  { t with bpm := to_numericB t.bpm }

/-- View a (coerced) genred row through the numeric bpm reading, giving a
row of the shape the shared scoring arithmetic operates on. -/
def convTrack (t : GTrack) : Track :=
  { filename := t.filename, bpm := asOptInt t.bpm, key := t.key }

/-- First row of the genred frame with the given filename. -/
def lookupGTrack (df : List GTrack) (s : String) : Option GTrack :=
  df.find? (fun t => t.filename == s)

/-- assign_points_and_sort, src/genred-setlists.py lines 185-229. The first
statement coerces the bpm column in place (df1 below), before any check, so
the returned pair carries the frame state after the call alongside the
result. The selection check of this draft also requires a numeric selected
BPM: pd.isna(selected_bpm) or not camelot_key returns the empty frame.
The remaining scoring lines are textually identical to the main.py draft
and are shared through scoreRow and sort_values_desc. -/
def genred_assign_points_and_sort (df : List GTrack) (selected_song : String) :
    Option (List ScoredRow) × List GTrack :=
  let df1 := df.map coerceGTrack
  let res := (lookupGTrack df1 selected_song).map fun sel =>
    let selected_bpm := asOptInt sel.bpm
    let camelot_key := musical_key_to_camelot sel.key
    if selected_bpm = none ∨ camelot_key = "" then []
    else
      sort_values_desc (fun r => r.total_points)
        ((df1.map convTrack).map (scoreRow (convTrack sel) camelot_key))
  (res, df1)

/-- Frame state after a call to the main.py assign_points_and_sort: the
assignments of the source there create only the derived columns bpm_diff,
bpm_points, harmonic_points, match_type, total_points and percentage; no
statement writes the filename, bpm or key columns, so the persistent part
of the frame is returned unchanged. -/
def main_engine_catalog_after (df : List Track) (_selected_song : String) : List Track :=
  df

/-- The 24 wheel positions, in table order. -/
def wheelPositions : List String := camelot_key_mapping.map (fun e => e.1)

/-- The numeric slots of the wheel. -/
def wheelSlots : List ℕ := [1, 2, 3, 4, 5, 6, 7, 8, 9, 10, 11, 12]

/-- Render a wheel position from slot number and mode (true is major, B). -/
def posStr (n : ℕ) (major : Bool) : String :=
  toString n ++ (if major then "B" else "A")

/-- Previous slot on the wheel, wrapping 1 back to 12. -/
def prevSlot (n : ℕ) : ℕ := if n = 1 then 12 else n - 1

/-- Next slot on the wheel, wrapping 12 forward to 1. -/
def nextSlot (n : ℕ) : ℕ := if n = 12 then 1 else n + 1

/-- The three-track catalog of the worked example in the spec. -/
def exampleCatalog : List Track :=
  [{ filename := "A", bpm := some 128, key := "Am" },
   { filename := "B", bpm := some 130, key := "C" },
   { filename := "C", bpm := some 100, key := "F#m" }]

/-- The scored row the engine derives for track A of the example
(percentage 100.00). -/
def exampleRowA : ScoredRow :=
  { filename := "A", bpm := some 128, key := "Am", match_type := "="
    bpm_points := 10, harmonic_points := 20, total_points := 30
    percentage_hundredths := 10000 }

/-- The scored row the engine derives for track B of the example
(percentage 43.33). -/
def exampleRowB : ScoredRow :=
  { filename := "B", bpm := some 130, key := "C", match_type := "+"
    bpm_points := 8, harmonic_points := 5, total_points := 13
    percentage_hundredths := 4333 }

/-- The scored row the engine derives for track C of the example
(percentage 0.00). -/
def exampleRowC : ScoredRow :=
  { filename := "C", bpm := some 100, key := "F#m", match_type := ""
    bpm_points := 0, harmonic_points := 0, total_points := 0
    percentage_hundredths := 0 }

/- General lemmas about the stable sort modelling pandas sort_values. -/

theorem insertSorted_perm {α : Type} (le : α → α → Bool) (a : α) (l : List α) :
    (insertSorted le a l).Perm (a :: l) := by
  induction l with
  | nil => simp [insertSorted]
  | cons b l ih =>
    by_cases h : le a b = true
    · simp [insertSorted, h]
    · simp only [insertSorted, if_neg h]
      exact (ih.cons b).trans (List.Perm.swap a b l)

theorem stableSort_perm {α : Type} (le : α → α → Bool) (l : List α) :
    (stableSort le l).Perm l := by
  induction l with
  | nil => simp [stableSort]
  | cons a l ih =>
    exact (insertSorted_perm le a (stableSort le l)).trans (ih.cons a)

theorem insertSorted_pairwise {α : Type} (le : α → α → Bool)
    (htot : ∀ a b, le a b = false → le b a = true)
    (htrans : ∀ a b c, le a b = true → le b c = true → le a c = true)
    (a : α) (l : List α) (hl : l.Pairwise (fun x y => le x y = true)) :
    (insertSorted le a l).Pairwise (fun x y => le x y = true) := by
  induction l with
  | nil => simp [insertSorted]
  | cons b l ih =>
    rcases List.pairwise_cons.mp hl with ⟨hb, hl2⟩
    by_cases h : le a b = true
    · simp only [insertSorted, if_pos h]
      refine List.pairwise_cons.mpr ⟨?_, hl⟩
      intro x hx
      rcases List.mem_cons.mp hx with rfl | hx
      · exact h
      · exact htrans a b x h (hb x hx)
    · simp only [insertSorted, if_neg h]
      refine List.pairwise_cons.mpr ⟨?_, ih hl2⟩
      intro x hx
      have hx2 : x = a ∨ x ∈ l := by
        have := (insertSorted_perm le a l).mem_iff.mp hx
        simpa using this
      rcases hx2 with rfl | hx2
      · exact htot _ _ (Bool.eq_false_iff.mpr h)
      · exact hb x hx2

theorem stableSort_pairwise {α : Type} (le : α → α → Bool)
    (htot : ∀ a b, le a b = false → le b a = true)
    (htrans : ∀ a b c, le a b = true → le b c = true → le a c = true)
    (l : List α) :
    (stableSort le l).Pairwise (fun x y => le x y = true) := by
  induction l with
  | nil => simp [stableSort]
  | cons a l ih => exact insertSorted_pairwise le htot htrans a (stableSort le l) ih

theorem sort_values_desc_perm {α : Type} (key : α → ℤ) (l : List α) :
    (sort_values_desc key l).Perm l :=
  stableSort_perm _ l

theorem sort_values_desc_sorted {α : Type} (key : α → ℤ) (l : List α) :
    (sort_values_desc key l).Pairwise (fun x y => key y ≤ key x) := by
  have h := stableSort_pairwise (fun a b => decide (key b ≤ key a))
    (fun a b hab => by simp only [decide_eq_false_iff_not] at hab; simp; omega)
    (fun a b c hab hbc => by
      simp only [decide_eq_true_eq] at hab hbc; simp; omega) l
  exact h.imp (fun hab => of_decide_eq_true hab)

theorem sort_values_asc_perm {α : Type} (key : α → ℤ) (l : List α) :
    (sort_values_asc key l).Perm l :=
  stableSort_perm _ l

theorem sort_values_asc_sorted {α : Type} (key : α → ℤ) (l : List α) :
    (sort_values_asc key l).Pairwise (fun x y => key x ≤ key y) := by
  have h := stableSort_pairwise (fun a b => decide (key a ≤ key b))
    (fun a b hab => by simp only [decide_eq_false_iff_not] at hab; simp; omega)
    (fun a b c hab hbc => by
      simp only [decide_eq_true_eq] at hab hbc; simp; omega) l
  exact h.imp (fun hab => of_decide_eq_true hab)

/- Helper lemmas about the engine. -/

theorem lookupTrack_mem {df : List Track} {s : String} {t : Track}
    (h : lookupTrack df s = some t) : t ∈ df :=
  List.mem_of_find?_eq_some h

theorem lookupTrack_filename {df : List Track} {s : String} {t : Track}
    (h : lookupTrack df s = some t) : t.filename = s := by
  have := List.find?_some h
  simpa using this

theorem lookupTrack_isSome_of_contains {df : List Track} {s : String}
    (h : (df.map Track.filename).contains s = true) :
    (lookupTrack df s).isSome = true := by
  rw [List.contains_iff_exists_mem_beq] at h
  obtain ⟨x, hx, hbeq⟩ := h
  obtain ⟨t, ht, rfl⟩ := List.mem_map.mp hx
  rw [lookupTrack, List.find?_isSome]
  exact ⟨t, ht, beq_iff_eq.mpr (beq_iff_eq.mp hbeq).symm⟩

theorem assign_eq_some {df : List Track} {s : String} {sel : Track}
    (h : lookupTrack df s = some sel)
    (hk : musical_key_to_camelot sel.key ≠ "") :
    assign_points_and_sort df s
      = some (sort_values_desc (fun r => r.total_points)
          (df.map (scoreRow sel (musical_key_to_camelot sel.key)))) := by
  simp [assign_points_and_sort, h, hk]

theorem scoreRow_filename (sel : Track) (ck : String) (t : Track) :
    (scoreRow sel ck t).filename = t.filename := rfl

/-- C1 (counterexample): the row of the adjacency table for 8B is not the list
the claim names; the neighbors of 8B are 7B, 9B, 8A, not 5A, 7B, 9B. -/
theorem c1_counterexample :
    camelotNeighbors "8B" = ["7B", "9B", "8A"] ∧
    camelotNeighbors "8B" ≠ ["5A", "7B", "9B"] := by decide

/-- C1 (amended): for every one of the 24 wheel positions, the neighbor list
of the Camelot adjacency table has exactly 3 distinct positions, in the
order: previous numeric slot (wrapping 1 to 12) at the same mode, next
numeric slot (wrapping 12 to 1) at the same mode, then the relative mode at
the same numeric slot. In particular the neighbors of 8B (slot 8, major) are
7B, 9B, 8A. -/
theorem c1_amended_neighbors : ∀ n ∈ wheelSlots, ∀ m : Bool,
    camelotNeighbors (posStr n m)
      = [posStr (prevSlot n) m, posStr (nextSlot n) m, posStr n (!m)] ∧
    (camelotNeighbors (posStr n m)).Nodup ∧
    (camelotNeighbors (posStr n m)).length = 3 := by decide

theorem c1_amended_neighbors_witness :
    camelotNeighbors (posStr 8 true)
      = [posStr (prevSlot 8) true, posStr (nextSlot 8) true, posStr 8 false] ∧
    (camelotNeighbors (posStr 8 true)).Nodup ∧
    (camelotNeighbors (posStr 8 true)).length = 3 :=
  c1_amended_neighbors 8 (by decide) true

/-- C2 (counterexample): on the worked example catalog with A selected, the
engine assigns track B harmony 5, tier "+" and total 13 (percentage 43.33),
not harmony 15, tier "+++", total 23, percentage 76.67 as the claim states:
the wheel position of C (8B) sits at index 2 of the neighbor list of 8A, so
it falls into the 5-point branch. -/
theorem c2_counterexample :
    assign_points_and_sort exampleCatalog "A"
      = some [exampleRowA, exampleRowB, exampleRowC] ∧
    exampleRowB.harmonic_points ≠ 15 ∧
    exampleRowB.match_type ≠ "+++" ∧
    exampleRowB.total_points ≠ 23 ∧
    exampleRowB.percentage_hundredths ≠ 7667 := by decide

/-- C2 (amended): for the catalog [A: 128 "Am", B: 130 "C", C: 100 "F#m"]
with A selected, the combined scoring assigns track B harmony 5 with tier
"+", tempo score 8, total 13, percentage 43.33 (4333 hundredths); assigns
track C harmony 0, tempo score 0, total 0, percentage 0.00; and ranks B
strictly ahead of C (the ranked result is exactly [B, C]). -/
theorem c2_amended_example :
    get_best_matches exampleCatalog "A" = some [exampleRowB, exampleRowC] ∧
    exampleRowB.harmonic_points = 5 ∧ exampleRowB.match_type = "+" ∧
    exampleRowB.bpm_points = 8 ∧ exampleRowB.total_points = 13 ∧
    exampleRowB.percentage_hundredths = 4333 ∧
    exampleRowC.harmonic_points = 0 ∧ exampleRowC.bpm_points = 0 ∧
    exampleRowC.total_points = 0 ∧ exampleRowC.percentage_hundredths = 0 ∧
    exampleRowB.total_points > exampleRowC.total_points := by decide

/-- C3 (counterexample): the combined scoring returns an empty result for a
selected track whose tempo is resolvable but whose key is not: emptiness is
decided by the key alone, not by tempo and key both being unresolvable as
the claim states. The track A below has tempo 120 and unmapped key "X". -/
theorem c3_counterexample :
    get_best_matches [Track.mk "A" (some 120) "X"] "A" = some [] ∧
    (Track.mk "A" (some 120) "X").bpm ≠ none ∧
    (Track.mk "A" (some 120) "X").filename = "A" ∧
    musical_key_to_camelot "X" = "" := by decide

theorem get_best_matches_eq (df : List Track) (s : String) :
    get_best_matches df s =
      if (df.map Track.filename).contains s = true then
        (assign_points_and_sort df s).map
          (fun rows => rows.filter (fun r => r.filename != s))
      else some [] := rfl

/-- C3 (amended): the combined-scoring rank operation never crashes (the
result is always produced), and it is empty exactly when the selected id has
no row in the catalog, or the key of the selected row does not resolve to a
Camelot position (regardless of its tempo), or every catalog row bears the
selected id (so that excluding the selection leaves nothing); the absent-id
and bad-key cases print a diagnostic in the source and are never fatal. -/
theorem c3_empty_result_iff (df : List Track) (s : String) :
    (get_best_matches df s).isSome = true ∧
    (get_best_matches df s = some [] ↔
      match lookupTrack df s with
      | none => True
      | some sel => musical_key_to_camelot sel.key = "" ∨ ∀ t ∈ df, t.filename = s) := by
  by_cases hc : (df.map Track.filename).contains s = true
  · have hsome := lookupTrack_isSome_of_contains hc
    obtain ⟨sel, hsel⟩ := Option.isSome_iff_exists.mp hsome
    rw [get_best_matches_eq, if_pos hc]
    by_cases hk : musical_key_to_camelot sel.key = ""
    · have hempty : assign_points_and_sort df s = some [] := by
        simp [assign_points_and_sort, hsel, hk]
      rw [hempty, hsel]
      exact ⟨rfl, by simp [hk]⟩
    · have hassign := assign_eq_some hsel hk
      rw [hassign, hsel]
      refine ⟨rfl, ?_⟩
      show some ((sort_values_desc (fun r => r.total_points)
          (df.map (scoreRow sel (musical_key_to_camelot sel.key)))).filter
            (fun r => r.filename != s)) = some []
        ↔ (musical_key_to_camelot sel.key = "" ∨ ∀ t ∈ df, t.filename = s)
      rw [Option.some_inj, List.filter_eq_nil_iff]
      constructor
      · intro h
        right
        intro t ht
        have hmem : scoreRow sel (musical_key_to_camelot sel.key) t
            ∈ sort_values_desc (fun r => r.total_points)
                (df.map (scoreRow sel (musical_key_to_camelot sel.key))) :=
          (sort_values_desc_perm _ _).mem_iff.mpr (List.mem_map_of_mem _ ht)
        have := h _ hmem
        simpa [scoreRow_filename] using this
      · intro h
        rcases h with hk2 | hall
        · exact absurd hk2 hk
        · intro r hr
          have hr2 : r ∈ df.map (scoreRow sel (musical_key_to_camelot sel.key)) :=
            (sort_values_desc_perm _ _).mem_iff.mp hr
          obtain ⟨t, ht, rfl⟩ := List.mem_map.mp hr2
          simp [scoreRow_filename, hall t ht]
  · have hnone : lookupTrack df s = none := by
      rw [lookupTrack, List.find?_eq_none]
      intro t ht hbeq
      apply hc
      rw [List.contains_iff_exists_mem_beq]
      exact ⟨t.filename, List.mem_map_of_mem _ ht,
        beq_iff_eq.mpr (beq_iff_eq.mp hbeq).symm⟩
    rw [get_best_matches_eq, if_neg hc, hnone]
    exact ⟨rfl, by simp⟩

theorem c3_empty_result_iff_witness :
    (get_best_matches [Track.mk "Q" (some 100) "Am"] "Q").isSome = true :=
  (c3_empty_result_iff [Track.mk "Q" (some 100) "Am"] "Q").1

/-- C5: with both tempos present the tempo score of a scored row is
max(0, 10 - |candidate - selected|), hence 0 whenever the difference is at
least 10 and 10 at an exact match; a candidate with an absent tempo scores
0 rather than raising an error. -/
theorem c5_tempo_score (sel t : Track) (ck : String) (sb : ℤ)
    (hsb : sel.bpm = some sb) :
    (∀ cb : ℤ, t.bpm = some cb →
      (scoreRow sel ck t).bpm_points = max 0 (10 - ((cb - sb).natAbs : ℤ)) ∧
      (10 ≤ ((cb - sb).natAbs : ℤ) → (scoreRow sel ck t).bpm_points = 0) ∧
      (cb = sb → (scoreRow sel ck t).bpm_points = 10)) ∧
    (t.bpm = none → (scoreRow sel ck t).bpm_points = 0) := by
  constructor
  · intro cb hcb
    have h1 : (scoreRow sel ck t).bpm_points = max 0 (10 - ((cb - sb).natAbs : ℤ)) := by
      simp [scoreRow, bpm_diff, bpm_points_of, hsb, hcb]
    refine ⟨h1, ?_, ?_⟩
    · intro hge; rw [h1]; omega
    · intro he; rw [h1, he]; omega
  · intro hnone
    simp [scoreRow, bpm_diff, bpm_points_of, hsb, hnone]

theorem c5_tempo_score_witness :
    (scoreRow (Track.mk "A" (some 120) "Am") "8A" (Track.mk "B" (some 124) "C")).bpm_points
      = max 0 (10 - ((((124 : ℤ) - 120).natAbs : ℤ))) :=
  ((c5_tempo_score (Track.mk "A" (some 120) "Am") (Track.mk "B" (some 124) "C")
      "8A" 120 rfl).1 124 rfl).1

/-- C6 (counterexample): a track with missing tempo and key Am, scored in a
catalog with itself selected, receives total 20 and percentage 66.67 rather
than total 30 and percentage 100.00: the missing tempo contributes 0 tempo
points, so the claim fails for tracks without both a tempo and a mapped
key. -/
theorem c6_counterexample :
    assign_points_and_sort [Track.mk "A" none "Am"] "A"
      = some [ScoredRow.mk "A" none "Am" "=" 0 20 20 6667] ∧
    (20 : ℤ) ≠ 30 ∧ (6667 : ℤ) ≠ 10000 := by decide

/-- C6 (amended): every track with a present tempo and a key that resolves
to a wheel position, when its catalog is scored with it selected, assigns
the track itself total score 30, percentage 100.00 and tier "=". -/
theorem c6_self_score (df : List Track) (s : String) (sel : Track) (sb : ℤ)
    (hsel : lookupTrack df s = some sel) (hsb : sel.bpm = some sb)
    (hkey : musical_key_to_camelot sel.key ≠ "") :
    ∃ rows, assign_points_and_sort df s = some rows ∧
      scoreRow sel (musical_key_to_camelot sel.key) sel ∈ rows ∧
      (scoreRow sel (musical_key_to_camelot sel.key) sel).filename = s ∧
      (scoreRow sel (musical_key_to_camelot sel.key) sel).total_points = 30 ∧
      (scoreRow sel (musical_key_to_camelot sel.key) sel).percentage_hundredths = 10000 ∧
      (scoreRow sel (musical_key_to_camelot sel.key) sel).match_type = "=" := by
  have hbp : bpm_points_of (bpm_diff sel.bpm sel.bpm) = 10 := by
    simp [bpm_diff, bpm_points_of, hsb]
  have hhm : calculate_harmonic_points_and_type (musical_key_to_camelot sel.key) sel.key
      = (20, "=") := by
    simp [calculate_harmonic_points_and_type]
  refine ⟨_, assign_eq_some hsel hkey, ?_, ?_, ?_, ?_, ?_⟩
  · exact (sort_values_desc_perm _ _).mem_iff.mpr
      (List.mem_map_of_mem _ (lookupTrack_mem hsel))
  · simpa [scoreRow_filename] using lookupTrack_filename hsel
  · simp [scoreRow, hbp, hhm]
  · have : pct_hundredths 30 = 10000 := by decide
    simp [scoreRow, hbp, hhm, this]
  · simp [scoreRow, hhm]

theorem c6_self_score_witness :
    ∃ rows, assign_points_and_sort [Track.mk "A" (some 120) "Am"] "A" = some rows ∧
      scoreRow (Track.mk "A" (some 120) "Am")
        (musical_key_to_camelot (Track.mk "A" (some 120) "Am").key)
        (Track.mk "A" (some 120) "Am") ∈ rows ∧
      (scoreRow (Track.mk "A" (some 120) "Am")
        (musical_key_to_camelot (Track.mk "A" (some 120) "Am").key)
        (Track.mk "A" (some 120) "Am")).filename = "A" ∧
      (scoreRow (Track.mk "A" (some 120) "Am")
        (musical_key_to_camelot (Track.mk "A" (some 120) "Am").key)
        (Track.mk "A" (some 120) "Am")).total_points = 30 ∧
      (scoreRow (Track.mk "A" (some 120) "Am")
        (musical_key_to_camelot (Track.mk "A" (some 120) "Am").key)
        (Track.mk "A" (some 120) "Am")).percentage_hundredths = 10000 ∧
      (scoreRow (Track.mk "A" (some 120) "Am")
        (musical_key_to_camelot (Track.mk "A" (some 120) "Am").key)
        (Track.mk "A" (some 120) "Am")).match_type = "=" :=
  c6_self_score _ "A" _ 120 (by decide) rfl (by decide)

/-- C7: the tempo-only fallback returns at most 6 rows, never a row whose
absolute tempo difference from the selected track exceeds 5 BPM, and its
rows are sorted by absolute tempo difference ascending. Stated for a
selected song that has a catalog row with a numeric tempo (without one, the
values[0] read in the source raises, respectively every difference is NaN). -/
theorem c7_closest_by_tempo (df : List Track) (s : String) (sel : Track) (sb : ℤ)
    (hsel : lookupTrack df s = some sel) (hsb : sel.bpm = some sb) :
    ∃ out, find_closest_songs df s = some out ∧
      out.length ≤ 6 ∧
      (∀ p ∈ out, ∃ d : ℤ, bpm_diff (some sb) p.2 = some d ∧ d ≤ 5) ∧
      out.Pairwise (fun p q =>
        (bpm_diff (some sb) p.2).getD 0 ≤ (bpm_diff (some sb) q.2).getD 0) := by
  have hout : find_closest_songs df s
      = some (((sort_values_asc (fun td => td.2.getD 0)
          ((df.map (fun t => (t, bpm_diff sel.bpm t.bpm))).filter
            (fun td => match td.2 with
              | some d => decide (d ≤ 5)
              | none => false))).take 6).map
          (fun td => (td.1.filename, td.1.bpm))) := by
    rw [find_closest_songs, hsel, Option.map_some']
  have hsnd : ∀ td ∈ (df.map (fun t => (t, bpm_diff sel.bpm t.bpm))),
      td.2 = bpm_diff sel.bpm td.1.bpm := by
    intro td htd
    obtain ⟨t, ht, rfl⟩ := List.mem_map.mp htd
    rfl
  refine ⟨_, hout, ?_, ?_, ?_⟩
  · rw [List.length_map, List.length_take]
    exact min_le_left _ _
  · intro p hp
    obtain ⟨td, htd, rfl⟩ := List.mem_map.mp hp
    have h1 : td ∈ sort_values_asc (fun td => td.2.getD 0)
        ((df.map (fun t => (t, bpm_diff sel.bpm t.bpm))).filter
          (fun td => match td.2 with
            | some d => decide (d ≤ 5)
            | none => false)) := List.mem_of_mem_take htd
    have h2 := (sort_values_asc_perm _ _).mem_iff.mp h1
    have h3 := List.of_mem_filter h2
    have h4 := List.mem_of_mem_filter h2
    have h5 := hsnd td h4
    rcases hbd : td.2 with _ | dd
    · rw [hbd] at h3
      simp at h3
    · rw [hbd] at h3
      simp only [decide_eq_true_eq] at h3
      refine ⟨dd, ?_, h3⟩
      rw [← hsb, ← h5, hbd]
  · apply List.pairwise_map.mpr
    have hp1 : (sort_values_asc (fun td => td.2.getD 0)
        ((df.map (fun t => (t, bpm_diff sel.bpm t.bpm))).filter
          (fun td => match td.2 with
            | some d => decide (d ≤ 5)
            | none => false))).Pairwise
        (fun x y => x.2.getD 0 ≤ y.2.getD 0) := sort_values_asc_sorted _ _
    have hp2 := hp1.sublist (List.take_sublist 6 _)
    refine hp2.imp_of_mem ?_
    intro x y hx hy hxy
    have hx2 := hsnd x (List.mem_of_mem_filter ((sort_values_asc_perm _ _).mem_iff.mp
      (List.mem_of_mem_take hx)))
    have hy2 := hsnd y (List.mem_of_mem_filter ((sort_values_asc_perm _ _).mem_iff.mp
      (List.mem_of_mem_take hy)))
    show (bpm_diff (some sb) x.1.bpm).getD 0 ≤ (bpm_diff (some sb) y.1.bpm).getD 0
    rw [← hsb, ← hx2, ← hy2]
    exact hxy

theorem c7_closest_by_tempo_witness :
    ∃ out, find_closest_songs
        [Track.mk "A" (some 120) "Am", Track.mk "B" (some 124) "C"] "A" = some out ∧
      out.length ≤ 6 ∧
      (∀ p ∈ out, ∃ d : ℤ, bpm_diff (some 120) p.2 = some d ∧ d ≤ 5) ∧
      out.Pairwise (fun p q =>
        (bpm_diff (some 120) p.2).getD 0 ≤ (bpm_diff (some 120) q.2).getD 0) :=
  c7_closest_by_tempo _ "A" (Track.mk "A" (some 120) "Am") 120 (by decide) rfl

/- Facts about the hand-authored tables, checked by evaluation, and the
bridge from a resolvable key name to a wheel position. -/

theorem wheel_facts : ∀ p ∈ wheelPositions,
    (camelotNeighbors p).length = 3 ∧ (camelotNeighbors p).Nodup ∧
    p ∉ camelotNeighbors p ∧ "" ∉ camelotNeighbors p := by decide

theorem key_map_values_mem : ∀ e ∈ musical_key_map, e.2 ∈ wheelPositions ∧ e.2 ≠ "" := by
  decide

theorem musical_key_to_camelot_mem {k : String} (h : musical_key_to_camelot k ≠ "") :
    musical_key_to_camelot k ∈ wheelPositions := by
  unfold musical_key_to_camelot at h ⊢
  cases hf : musical_key_map.find? (fun e => e.1 == k) with
  | none => rw [hf] at h; exact absurd rfl h
  | some e =>
    exact (key_map_values_mem e (List.mem_of_find?_eq_some hf)).1

theorem calc_explicit (c a b d : String) (hns : camelotNeighbors c = [a, b, d]) (k2 : String) :
    calculate_harmonic_points_and_type c k2
      = (if musical_key_to_camelot k2 = c then ((20 : ℤ), "=")
         else if musical_key_to_camelot k2 = a then ((15 : ℤ), "+++")
         else if musical_key_to_camelot k2 = a ∨ musical_key_to_camelot k2 = b then ((10 : ℤ), "++")
         else if musical_key_to_camelot k2 = d then ((5 : ℤ), "+")
         else ((0 : ℤ), "")) := by
  simp only [calculate_harmonic_points_and_type, hns]
  simp only [List.take_succ_cons, List.take_zero, List.drop_succ_cons, List.drop_zero]
  by_cases h0 : musical_key_to_camelot k2 = c
  · simp [h0]
  · by_cases h1 : musical_key_to_camelot k2 = a
    · simp [h0, h1]
    · by_cases h2 : musical_key_to_camelot k2 = b
      · simp [h0, h1, h2]
      · by_cases h3 : musical_key_to_camelot k2 = d
        · simp [h0, h1, h2, h3]
        · simp [h0, h1, h2, h3]

/-- C8: harmony tier assignment follows first-matching-rule priority over
the overlapping first-N-neighbor conditions, for any selected key that
resolves to a wheel position: same wheel position always yields 20 and tier
"=" (the first rule wins even though later checks could also apply); a
candidate among the first 1 neighbor yields 15 and "+++"; among the first 2
but not the first 1, 10 and "++"; among all 3 neighbors but not the first 2,
5 and "+"; and otherwise, including a candidate key that resolves to no
position at all, 0 with tier "". -/
theorem c8_tier_priority (k k2 : String) (hres : musical_key_to_camelot k ≠ "") :
    (musical_key_to_camelot k2 = musical_key_to_camelot k →
      calculate_harmonic_points_and_type (musical_key_to_camelot k) k2 = (20, "=")) ∧
    (musical_key_to_camelot k2 ≠ musical_key_to_camelot k →
      musical_key_to_camelot k2 ∈ (camelotNeighbors (musical_key_to_camelot k)).take 1 →
      calculate_harmonic_points_and_type (musical_key_to_camelot k) k2 = (15, "+++")) ∧
    (musical_key_to_camelot k2 ≠ musical_key_to_camelot k →
      musical_key_to_camelot k2 ∉ (camelotNeighbors (musical_key_to_camelot k)).take 1 →
      musical_key_to_camelot k2 ∈ (camelotNeighbors (musical_key_to_camelot k)).take 2 →
      calculate_harmonic_points_and_type (musical_key_to_camelot k) k2 = (10, "++")) ∧
    (musical_key_to_camelot k2 ≠ musical_key_to_camelot k →
      musical_key_to_camelot k2 ∉ (camelotNeighbors (musical_key_to_camelot k)).take 2 →
      musical_key_to_camelot k2 ∈ camelotNeighbors (musical_key_to_camelot k) →
      calculate_harmonic_points_and_type (musical_key_to_camelot k) k2 = (5, "+")) ∧
    (musical_key_to_camelot k2 ≠ musical_key_to_camelot k →
      musical_key_to_camelot k2 ∉ camelotNeighbors (musical_key_to_camelot k) →
      calculate_harmonic_points_and_type (musical_key_to_camelot k) k2 = (0, "")) ∧
    (musical_key_to_camelot k2 = "" →
      calculate_harmonic_points_and_type (musical_key_to_camelot k) k2 = (0, "")) := by
  obtain ⟨hlen, hnd, hself, hempt⟩ := wheel_facts _ (musical_key_to_camelot_mem hres)
  obtain ⟨a, b, d, hns⟩ := List.length_eq_three.mp hlen
  have hc := calc_explicit _ a b d hns k2
  rw [hns] at hnd hself hempt
  refine ⟨?_, ?_, ?_, ?_, ?_, ?_⟩
  · intro h0
    rw [hc, if_pos h0]
  · intro hne h1
    rw [hns] at h1
    have ha : musical_key_to_camelot k2 = a := by simpa using h1
    rw [hc, if_neg hne, if_pos ha]
  · intro hne h1 h2
    rw [hns] at h1 h2
    have ha : musical_key_to_camelot k2 ≠ a := by simpa using h1
    have hb : musical_key_to_camelot k2 = b := by
      rcases (by simpa using h2 : musical_key_to_camelot k2 = a ∨ musical_key_to_camelot k2 = b)
        with h | h
      · exact absurd h ha
      · exact h
    rw [hc, if_neg hne, if_neg ha, if_pos (Or.inr hb)]
  · intro hne h2 h3
    rw [hns] at h2 h3
    have hab : ¬(musical_key_to_camelot k2 = a ∨ musical_key_to_camelot k2 = b) := by
      simpa using h2
    have hd : musical_key_to_camelot k2 = d := by
      rcases (by simpa using h3 :
          musical_key_to_camelot k2 = a ∨ musical_key_to_camelot k2 = b ∨
            musical_key_to_camelot k2 = d) with h | h | h
      · exact absurd (Or.inl h) hab
      · exact absurd (Or.inr h) hab
      · exact h
    rw [hc, if_neg hne, if_neg (fun h => hab (Or.inl h)), if_neg hab, if_pos hd]
  · intro hne h4
    rw [hns] at h4
    have hnin : ¬(musical_key_to_camelot k2 = a ∨ musical_key_to_camelot k2 = b ∨
        musical_key_to_camelot k2 = d) := by simpa using h4
    rw [hc, if_neg hne, if_neg (fun h => hnin (Or.inl h)),
      if_neg (fun h => hnin (h.imp id Or.inl)), if_neg (fun h => hnin (Or.inr (Or.inr h)))]
  · intro h2e
    have hne : musical_key_to_camelot k2 ≠ musical_key_to_camelot k := by
      intro hh
      exact hres (hh ▸ h2e)
    have hnin : ¬(musical_key_to_camelot k2 = a ∨ musical_key_to_camelot k2 = b ∨
        musical_key_to_camelot k2 = d) := by
      rw [h2e]
      simp only [List.mem_cons, List.not_mem_nil] at hempt
      tauto
    rw [hc, if_neg hne, if_neg (fun h => hnin (Or.inl h)),
      if_neg (fun h => hnin (h.imp id Or.inl)), if_neg (fun h => hnin (Or.inr (Or.inr h)))]

theorem c8_tier_priority_witness :
    calculate_harmonic_points_and_type (musical_key_to_camelot "Am") "C" = (5, "+") :=
  (c8_tier_priority "Am" "C" (by decide)).2.2.2.1 (by decide) (by decide) (by decide)

theorem map_eq_self_of_eq {α : Type} (f : α → α) (l : List α) (h : ∀ a ∈ l, f a = a) :
    l.map f = l := by
  induction l with
  | nil => rfl
  | cons a l ih =>
    rw [List.map_cons, h a (List.mem_cons_self a l),
      ih (fun x hx => h x (List.mem_cons_of_mem a hx))]

/-- C9 (counterexample): the genred draft mutates a persistent column: on a
catalog whose only row carries the raw string bpm cell "abc", the call
leaves the catalog with that bpm cell overwritten by NaN, so the bpm value
after the call differs from the value before it. -/
theorem c9_counterexample :
    (genred_assign_points_and_sort [GTrack.mk "A" (BpmVal.str "abc") "Am"] "A").2
      = [GTrack.mk "A" BpmVal.missing "Am"] ∧
    [GTrack.mk "A" BpmVal.missing "Am"] ≠ [GTrack.mk "A" (BpmVal.str "abc") "Am"] := by
  decide

/-- C9 (amended): the src/main.py engine leaves the persistent catalog
columns unchanged and its result rows carry the filename, bpm and
key of each track unmodified; the genred draft preserves the filename and key of every row but
overwrites every bpm cell with its numeric coercion, so a call can change
persistent bpm values (it does exactly when some bpm cell is not already
numeric). -/
theorem c9_frame_effect :
    (∀ (df : List Track) (s : String), main_engine_catalog_after df s = df) ∧
    (∀ (gdf : List GTrack) (s : String),
      (genred_assign_points_and_sort gdf s).2 = gdf.map coerceGTrack ∧
      ∀ t ∈ (genred_assign_points_and_sort gdf s).2, ∃ t0 ∈ gdf,
        t.filename = t0.filename ∧ t.key = t0.key ∧ t.bpm = to_numericB t0.bpm) ∧
    (∀ (df : List Track) (s : String) (rows : List ScoredRow),
      assign_points_and_sort df s = some rows → ∀ r ∈ rows, ∃ t ∈ df,
        r.filename = t.filename ∧ r.bpm = t.bpm ∧ r.key = t.key) := by
  refine ⟨fun df s => rfl, fun gdf s => ⟨rfl, ?_⟩, ?_⟩
  · intro t ht
    have ht2 : t ∈ gdf.map coerceGTrack := ht
    obtain ⟨t0, ht0, rfl⟩ := List.mem_map.mp ht2
    exact ⟨t0, ht0, rfl, rfl, rfl⟩
  · intro df s rows hrows
    rw [assign_points_and_sort] at hrows
    cases hsel : lookupTrack df s with
    | none => rw [hsel] at hrows; simp at hrows
    | some sel =>
      rw [hsel, Option.map_some', Option.some_inj] at hrows
      by_cases hk : musical_key_to_camelot sel.key = ""
      · rw [if_pos hk] at hrows
        intro r hr
        rw [← hrows] at hr
        simp at hr
      · rw [if_neg hk] at hrows
        intro r hr
        rw [← hrows] at hr
        have hr2 : r ∈ df.map (scoreRow sel (musical_key_to_camelot sel.key)) :=
          (sort_values_desc_perm _ _).mem_iff.mp hr
        obtain ⟨t, ht, rfl⟩ := List.mem_map.mp hr2
        exact ⟨t, ht, rfl, rfl, rfl⟩

theorem c9_frame_effect_witness :
    ∃ t ∈ [Track.mk "W" (some 100) "Am"],
      (ScoredRow.mk "W" (some 100) "Am" "=" 10 20 30 10000).filename = t.filename ∧
      (ScoredRow.mk "W" (some 100) "Am" "=" 10 20 30 10000).bpm = t.bpm ∧
      (ScoredRow.mk "W" (some 100) "Am" "=" 10 20 30 10000).key = t.key :=
  c9_frame_effect.2.2 [Track.mk "W" (some 100) "Am"] "W"
    [ScoredRow.mk "W" (some 100) "Am" "=" 10 20 30 10000] (by decide)
    (ScoredRow.mk "W" (some 100) "Am" "=" 10 20 30 10000) (by decide)

/-- C10: when the selected song is present, every bpm cell of the catalog
is already numeric, and the key of the selected song resolves to a wheel
position, the two draft engines return identical result tables, row for row
and in the same order (and the table is produced, not an error): on such a
catalog the numeric coercion of the genred draft is the identity and its extra
selected-tempo check passes, after which the two drafts run the same
scoring and sorting lines. -/
theorem c10_drafts_agree (gdf : List GTrack) (s : String)
    (hnum : ∀ t ∈ gdf, ∃ n : ℤ, t.bpm = BpmVal.num n)
    (sel : Track) (hsel : lookupTrack (gdf.map convTrack) s = some sel)
    (hkey : musical_key_to_camelot sel.key ≠ "") :
    (genred_assign_points_and_sort gdf s).1 = assign_points_and_sort (gdf.map convTrack) s ∧
    ∃ rows, assign_points_and_sort (gdf.map convTrack) s = some rows := by
  have h1 : gdf.map coerceGTrack = gdf := by
    apply map_eq_self_of_eq
    intro t ht
    obtain ⟨n, hn⟩ := hnum t ht
    cases t with
    | mk f bp k2 =>
      simp only at hn
      rw [hn]
      rfl
  have h2 : (lookupGTrack gdf s).map convTrack = some sel := by
    rw [← hsel, lookupTrack, lookupGTrack, List.find?_map]
    rfl
  obtain ⟨gsel, hgsel, hconv⟩ := Option.map_eq_some'.mp h2
  have hgmem : gsel ∈ gdf := List.mem_of_find?_eq_some hgsel
  obtain ⟨n, hgn⟩ := hnum gsel hgmem
  have hkeys : gsel.key = sel.key := by rw [← hconv]; rfl
  have hres : (genred_assign_points_and_sort gdf s).1
      = (lookupGTrack (gdf.map coerceGTrack) s).map (fun sel2 =>
          if asOptInt sel2.bpm = none ∨ musical_key_to_camelot sel2.key = "" then []
          else sort_values_desc (fun r => r.total_points)
            (((gdf.map coerceGTrack).map convTrack).map
              (scoreRow (convTrack sel2) (musical_key_to_camelot sel2.key)))) := rfl
  rw [hres, h1, hgsel, Option.map_some']
  have hcond : ¬(asOptInt gsel.bpm = none ∨ musical_key_to_camelot gsel.key = "") := by
    rw [hgn, hkeys]
    simp [asOptInt, hkey]
  rw [if_neg hcond, assign_eq_some hsel hkey]
  constructor
  · rw [hconv, hkeys]
  · exact ⟨_, rfl⟩

theorem c10_drafts_agree_witness :
    (genred_assign_points_and_sort [GTrack.mk "A" (BpmVal.num 120) "Am"] "A").1
      = assign_points_and_sort ([GTrack.mk "A" (BpmVal.num 120) "Am"].map convTrack) "A" ∧
    ∃ rows, assign_points_and_sort
        ([GTrack.mk "A" (BpmVal.num 120) "Am"].map convTrack) "A" = some rows :=
  c10_drafts_agree [GTrack.mk "A" (BpmVal.num 120) "Am"] "A"
    (by
      intro t ht
      rw [List.mem_singleton] at ht
      subst ht
      exact ⟨120, rfl⟩)
    (Track.mk "A" (some 120) "Am") (by decide) (by decide)
